import Mathlib

/-!
Shallow embedding of the Dunnet-style text adventure engine (`main.py`):
the world model (rooms, items, exits), the command dispatcher, the
visibility rule and the win-condition check, together with theorems about
the claims of the specification.

Modelling conventions:
* Python `str` is Lean `String`; all game data strings are transcribed
  verbatim from the source (apostrophes written with the `\x27` escape).
* The room dictionary has the fixed key set
  {driveway, house, kitchen, basement, upstairs, garden, secret, road};
  it is modelled as a structure with one `Room` field per key, indexed by
  the enumeration `RoomKey`.  Every exit in the data and every assignment
  to `current_room` stays inside this key set, so the total indexing
  function `getRoom` is the faithful analogue of `self.state.rooms[...]`.
* The item dictionary `state.items` is never mutated by any code path, so
  it is modelled as the constant association list `gameItems` (in the
  source insertion order, which `_find_item` iterates).
* `random.choice` in `_unknown_command` is modelled by an extra oracle
  argument `rnd : Nat` selecting the suggestion; theorems quantify over it.
* Python integers are modelled by `Nat` (score and moves start at 0 and
  are only ever incremented).
-/

namespace Dunnet

/-- Lowercasing of a string, character by character (Python `str.lower`
on the ASCII command vocabulary of this game). -/
def strToLower (s : String) : String := ⟨s.data.map Char.toLower⟩

/-- Splitting a list of characters into maximal whitespace-free words,
Python `str.split()` (empty pieces discarded).  `acc` holds the characters
of the word currently being read, in reverse. -/
def wordsAux : List Char → List Char → List String
  | [], acc => if acc.isEmpty then [] else [⟨acc.reverse⟩]
  | c :: cs, acc =>
    if c.isWhitespace then
      if acc.isEmpty then wordsAux cs [] else (⟨acc.reverse⟩ : String) :: wordsAux cs []
    else
      wordsAux cs (c :: acc)

/-- Tokenisation performed by `process_command`:
`user_input.strip().lower().split()`.  Lowercasing commutes with
whitespace splitting and `split()` already ignores surrounding
whitespace, so this equals splitting the lowercased character list. -/
def tokenize (s : String) : List String := wordsAux (s.data.map Char.toLower) []

/-- The ten members of the `Direction` enumeration. -/
inductive Direction
  | north | south | east | west | up | down
  | northeast | northwest | southeast | southwest
deriving DecidableEq

/-- The `value` string of a `Direction` member. -/
def Direction.value : Direction → String
  | .north => "north"
  | .south => "south"
  | .east => "east"
  | .west => "west"
  | .up => "up"
  | .down => "down"
  | .northeast => "northeast"
  | .northwest => "northwest"
  | .southeast => "southeast"
  | .southwest => "southwest"

/-- `Direction(direction_str)`: the member whose value equals the string,
or a `ValueError` modelled as `none`. -/
def parseDirection : String → Option Direction
  | "north" => some .north
  | "south" => some .south
  | "east" => some .east
  | "west" => some .west
  | "up" => some .up
  | "down" => some .down
  | "northeast" => some .northeast
  | "northwest" => some .northwest
  | "southeast" => some .southeast
  | "southwest" => some .southwest
  | _ => none

/-- The eight keys of the room dictionary built by `_initialize_world`. -/
inductive RoomKey
  | driveway | house | kitchen | basement | upstairs | garden | secret | road
deriving DecidableEq

/-- `Item` dataclass: name, description, portable, usable, aliases.
The aliases below already include the item name appended by
`__post_init__`. -/
structure Item where
  name : String
  description : String
  portable : Bool
  usable : Bool
  aliases : List String
deriving DecidableEq

/-- `Room` dataclass.  `exits` is the `Direction -> room key` dict as an
association list in insertion order. -/
structure Room where
  name : String
  description : String
  exits : List (Direction × RoomKey)
  items : List String
  visited : Bool
  dark : Bool
deriving DecidableEq

/-- `GameResult` dataclass (frozen). -/
structure GameResult where
  message : String
  game_over : Bool
  clear_screen : Bool
deriving DecidableEq

/-- `GameResult(message)` with the default flags. -/
def GR (m : String) : GameResult := ⟨m, false, false⟩

/-- The room dictionary: one field per key. -/
structure Rooms where
  driveway : Room
  house : Room
  kitchen : Room
  basement : Room
  upstairs : Room
  garden : Room
  secret : Room
  road : Room
deriving DecidableEq

/-- Dictionary read `rooms[key]`. -/
def getRoom (rs : Rooms) : RoomKey → Room
  | .driveway => rs.driveway
  | .house => rs.house
  | .kitchen => rs.kitchen
  | .basement => rs.basement
  | .upstairs => rs.upstairs
  | .garden => rs.garden
  | .secret => rs.secret
  | .road => rs.road

/-- Replacing the room stored at `key` (in-place mutation of the room
object in the source). -/
def setRoom (rs : Rooms) (k : RoomKey) (r : Room) : Rooms :=
  match k with
  | .driveway => { rs with driveway := r }
  | .house => { rs with house := r }
  | .kitchen => { rs with kitchen := r }
  | .basement => { rs with basement := r }
  | .upstairs => { rs with upstairs := r }
  | .garden => { rs with garden := r }
  | .secret => { rs with secret := r }
  | .road => { rs with road := r }

/-- The whole mutable state: the fields of `GameState` together with the
sibling `DunnetGame.lamp_on` flag (the only other mutable state of the
game object). -/
structure Game where
  current_room : RoomKey
  inventory : List String
  rooms : Rooms
  game_over : Bool
  score : Nat
  moves : Nat
  lamp_on : Bool
deriving DecidableEq

/-- The item dictionary built by `_initialize_world`, in insertion order;
each item's aliases end with its own lowercased name as appended by
`Item.__post_init__`. -/
def gameItems : List (String × Item) :=
  [ ("shovel", ⟨"shovel", "A sturdy metal shovel for digging.", true, false, ["spade", "shovel"]⟩),
    ("lamp", ⟨"lamp", "A bright electric lamp.", true, true, ["light", "lantern", "lamp"]⟩),
    ("key", ⟨"key", "A small brass key.", true, false, ["brass key", "key"]⟩),
    ("cpu", ⟨"cpu", "A computer CPU chip.", true, false, ["chip", "processor", "cpu"]⟩),
    ("disk", ⟨"disk", "A floppy disk labeled \x27BACKUP\x27.", true, false, ["floppy", "backup", "disk"]⟩),
    ("food", ⟨"food", "Some nutritious trail mix.", true, true, ["trail mix", "snack", "food"]⟩),
    ("water", ⟨"water", "A bottle of fresh water.", true, true, ["bottle", "water"]⟩) ]

/-- Key lookup in the item dictionary (`state.items[k]`, `k in state.items`). -/
def lookupItem : String → Option Item
  | k => (gameItems.find? (fun p => p.1 == k)).map Prod.snd

/-- `_find_item`: first item (in dictionary insertion order) one of whose
lowercased aliases equals the lowercased query. -/
def findItem (itemName : String) : Option Item :=
  let t := strToLower itemName
  (gameItems.map Prod.snd).find? (fun it => (it.aliases.map strToLower).contains t)

/-- The room dictionary as built by `_initialize_world`.  Note that the
garden is created with a `down` exit to the secret room already present. -/
def initRooms : Rooms where
  driveway :=
    ⟨"Driveway",
     "You are standing in the driveway of a large suburban house. There is a shovel here.",
     [(.north, .house), (.south, .road), (.east, .garden)],
     ["shovel"], false, false⟩
  house :=
    ⟨"Living Room",
     "You are in a comfortable living room with a fireplace.",
     [(.south, .driveway), (.east, .kitchen), (.up, .upstairs)],
     [], false, false⟩
  kitchen :=
    ⟨"Kitchen",
     "A modern kitchen with granite countertops. There\x27s some food on the counter.",
     [(.west, .house), (.down, .basement)],
     ["food"], false, false⟩
  basement :=
    ⟨"Basement",
     "A dark basement filled with old computers and equipment. You see a CPU and disk here.",
     [(.up, .kitchen)],
     ["cpu", "disk"], false, true⟩
  upstairs :=
    ⟨"Bedroom",
     "A cozy bedroom with a lamp on the nightstand.",
     [(.down, .house)],
     ["lamp"], false, false⟩
  garden :=
    ⟨"Garden",
     "A beautiful garden behind the house. You notice some loose soil near a tree.",
     [(.west, .driveway), (.down, .secret)],
     [], false, false⟩
  secret :=
    ⟨"Secret Room",
     "You\x27ve discovered a hidden underground chamber! There\x27s a key here.",
     [(.up, .garden)],
     ["key"], false, false⟩
  road :=
    ⟨"Country Road",
     "You\x27re on a quiet country road. There\x27s a bottle of water by the roadside.",
     [(.north, .driveway)],
     ["water"], false, false⟩

/-- The state at session start: `GameState()` plus `lamp_on = False`. -/
def initGame : Game :=
  { current_room := .driveway
    inventory := []
    rooms := initRooms
    game_over := false
    score := 0
    moves := 0
    lamp_on := false }

/-- Dictionary read `room.exits[direction]` / membership test
`direction in room.exits`, as an association-list lookup. -/
def lookupExit : List (Direction × RoomKey) → Direction → Option RoomKey
  | [], _ => none
  | (d, k) :: rest, q => if d = q then some k else lookupExit rest q

/-- Dictionary write `room.exits[direction] = dest`: replace the value of
an existing key in place, otherwise append the new entry. -/
def setExit : List (Direction × RoomKey) → Direction → RoomKey → List (Direction × RoomKey)
  | [], q, dest => [(q, dest)]
  | (d, k) :: rest, q, dest =>
    if d = q then (q, dest) :: rest else (d, k) :: setExit rest q dest

/-- `_current_room`: `self.state.rooms[self.state.current_room]`. -/
def currentRoom (g : Game) : Room := getRoom g.rooms g.current_room

/-- `_can_see`: `not room.dark or (self.lamp_on and "lamp" in inventory)`. -/
def canSee (g : Game) : Bool :=
  !(currentRoom g).dark || (g.lamp_on && g.inventory.contains "lamp")

/-- Placeholder item for dictionary reads whose key is guaranteed present
(a missing key would be a fatal `KeyError` in the source and is
unreachable on this fixed item dictionary). -/
def dummyItem : Item := ⟨"", "", false, false, []⟩

/-- The arrow label of `exit_symbols` in `_look`; the four diagonal
directions fall back to `direction.value`. -/
def exitSymbol : Direction → String
  | .north => "↑ north"
  | .south => "↓ south"
  | .east => "→ east"
  | .west => "← west"
  | .up => "⬆ up"
  | .down => "⬇ down"
  | d => d.value

/-- The simplified `AsciiArt.get_room_art` of the source returns `""`. -/
def getRoomArt (_ : RoomKey) : String := ""

/-- The simplified `AsciiArt.get_item_art` of the source returns `""`. -/
def getItemArt (_ : String) : String := ""

/-- `_look`: the dark short-circuit, marking the room visited, and the
rendered description. -/
def look (g : Game) (_args : List String) : Game × GameResult :=
  let room := currentRoom g
  if !(canSee g) then
    (g, GR "It is too dark to see anything.")
  else
    let g' := { g with rooms := setRoom g.rooms g.current_room { room with visited := true } }
    let artParts := if getRoomArt g.current_room ≠ "" then [getRoomArt g.current_room, ""] else []
    let headParts := ["**" ++ room.name ++ "**", "", room.description]
    let visibleItems := room.items.filter (fun i => (lookupItem i).isSome)
    let itemParts :=
      if visibleItems ≠ [] then
        ["", "🔍 **You can see:**"] ++
          visibleItems.map (fun i => "   • " ++ ((lookupItem i).getD dummyItem).description)
      else []
    let exitParts :=
      if room.exits ≠ [] then
        ["", "🚪 **Exits:** " ++ String.intercalate ", " (room.exits.map (fun p => exitSymbol p.1))]
      else []
    (g', GR (String.intercalate "\n" (artParts ++ headParts ++ itemParts ++ exitParts)))

/-- Python `str.title()` restricted to the item names of this game, which
are single all-lowercase ASCII words: capitalise the first character. -/
def titleStr (s : String) : String :=
  match s.data with
  | [] => ""
  | c :: cs => ⟨Char.toUpper c :: cs⟩

/-- The rendered body of a successful `_examine`: optional item art, the
titled name, the description and the properties line. -/
def examineMessage (item : Item) : String :=
  let artParts := if getItemArt item.name ≠ "" then [getItemArt item.name, ""] else []
  let props :=
    (if item.portable then ["📦 Portable"] else ["🏗️ Fixed in place"]) ++
      (if item.usable then ["⚙️ Usable"] else [])
  let propParts :=
    if props ≠ [] then ["", "Properties: " ++ String.intercalate ", " props] else []
  String.intercalate "\n"
    (artParts ++ ["**" ++ titleStr item.name ++ "**", item.description] ++ propParts)

/-- `_examine`: with no arguments behaves as `_look`; otherwise resolves
the target and renders it when it is in the current room or inventory. -/
def examine (g : Game) (args : List String) : Game × GameResult :=
  match args with
  | [] => look g []
  | _ =>
    if !(canSee g) then
      (g, GR "It is too dark to see anything.")
    else
      match findItem (String.intercalate " " args) with
      | none =>
        (g, GR ("You don\x27t see any \x27" ++ String.intercalate " " args ++ "\x27 here."))
      | some item =>
        if !((currentRoom g).items.contains item.name) && !(g.inventory.contains item.name) then
          (g, GR ("You don\x27t see any \x27" ++ String.intercalate " " args ++ "\x27 here."))
        else
          (g, GR (examineMessage item))

/-- `_take`: argument and visibility checks, then moves the item from the
current room's list to the inventory and awards +5 score. -/
def takeCmd (g : Game) (args : List String) : Game × GameResult :=
  match args with
  | [] => (g, GR "Take what?")
  | _ =>
    if !(canSee g) then
      (g, GR "It is too dark to see anything.")
    else
      match findItem (String.intercalate " " args) with
      | none =>
        (g, GR ("You don\x27t see any \x27" ++ String.intercalate " " args ++ "\x27 here."))
      | some item =>
        if !((currentRoom g).items.contains item.name) then
          (g, GR ("You don\x27t see any \x27" ++ String.intercalate " " args ++ "\x27 here."))
        else if !item.portable then
          (g, GR ("You can\x27t take the " ++ item.name ++ "."))
        else
          ({ g with
              rooms := setRoom g.rooms g.current_room
                { currentRoom g with items := (currentRoom g).items.erase item.name }
              inventory := g.inventory ++ [item.name]
              score := g.score + 5 },
           GR ("You take the " ++ item.name ++ "."))

/-- `_drop`: moves the item from the inventory back to the current room
(no visibility requirement, no score change). -/
def dropCmd (g : Game) (args : List String) : Game × GameResult :=
  match args with
  | [] => (g, GR "Drop what?")
  | _ =>
    match findItem (String.intercalate " " args) with
    | none => (g, GR ("You don\x27t have any \x27" ++ String.intercalate " " args ++ "\x27."))
    | some item =>
      if !(g.inventory.contains item.name) then
        (g, GR ("You don\x27t have any \x27" ++ String.intercalate " " args ++ "\x27."))
      else
        ({ g with
            inventory := g.inventory.erase item.name
            rooms := setRoom g.rooms g.current_room
              { currentRoom g with items := (currentRoom g).items ++ [item.name] } },
         GR ("You drop the " ++ item.name ++ "."))

/-- One numbered line of the inventory display. -/
def inventoryLine (p : Nat × String) : String :=
  let item := (lookupItem p.2).getD dummyItem
  "│ " ++ toString (p.1 + 1) ++ ". " ++ (if item.portable then "🎒" else "⚙️") ++ " " ++ item.name

/-- `_inventory`: lists carried items or the decorated empty message. -/
def inventoryCmd (g : Game) (_args : List String) : Game × GameResult :=
  if g.inventory.isEmpty then
    (g, GR (String.intercalate "\n"
      ["┌─ 🎒 YOUR INVENTORY 🎒 ─┐",
       "│                       │",
       "│     *empty pockets*   │",
       "│                       │",
       "└───────────────────────┘"]))
  else
    (g, GR (String.intercalate "\n"
      (["┌─ 🎒 YOUR INVENTORY 🎒 ─┐"] ++
        g.inventory.enum.map inventoryLine ++
        ["└────────────────────────┘", "",
         "💼 **Carrying " ++ toString g.inventory.length ++ " item(s)**"])))

/-- `_move`: relocate through an exit if it exists, increment the move
counter, then auto-look in the new room; otherwise an error with no
state change. -/
def move (g : Game) (d : Direction) : Game × GameResult :=
  match lookupExit (currentRoom g).exits d with
  | none => (g, GR "You can\x27t go that way.")
  | some dest =>
    look { g with current_room := dest, moves := g.moves + 1 } []

/-- `_go`: parse the direction argument and move. -/
def go (g : Game) (args : List String) : Game × GameResult :=
  match args with
  | [] => (g, GR "Go where?")
  | a :: _ =>
    match parseDirection (strToLower a) with
    | none => (g, GR ("You can\x27t go \x27" ++ strToLower a ++ "\x27."))
    | some d => move g d

/-- `_go_north` movement shortcut. -/
def goNorth (g : Game) (_args : List String) : Game × GameResult := move g .north

/-- `_go_south` movement shortcut. -/
def goSouth (g : Game) (_args : List String) : Game × GameResult := move g .south

/-- `_go_east` movement shortcut. -/
def goEast (g : Game) (_args : List String) : Game × GameResult := move g .east

/-- `_go_west` movement shortcut. -/
def goWest (g : Game) (_args : List String) : Game × GameResult := move g .west

/-- `_go_up` movement shortcut. -/
def goUp (g : Game) (_args : List String) : Game × GameResult := move g .up

/-- `_go_down` movement shortcut. -/
def goDown (g : Game) (_args : List String) : Game × GameResult := move g .down

/-- `_use`: requires the item in inventory and usable; lamp toggles
`lamp_on`, food and water are consumed for +10 score each. -/
def useCmd (g : Game) (args : List String) : Game × GameResult :=
  match args with
  | [] => (g, GR "Use what?")
  | _ =>
    match findItem (String.intercalate " " args) with
    | none => (g, GR ("You don\x27t have any \x27" ++ String.intercalate " " args ++ "\x27."))
    | some item =>
      if !(g.inventory.contains item.name) then
        (g, GR ("You don\x27t have any \x27" ++ String.intercalate " " args ++ "\x27."))
      else if !item.usable then
        (g, GR ("You can\x27t use the " ++ item.name ++ "."))
      else
        match item.name with
        | "lamp" =>
          ({ g with lamp_on := !g.lamp_on },
           GR ("You " ++ (if !g.lamp_on then "turn on" else "turn off") ++ " the lamp."))
        | "food" =>
          ({ g with inventory := g.inventory.erase "food", score := g.score + 10 },
           GR "You eat the trail mix. You feel refreshed!")
        | "water" =>
          ({ g with inventory := g.inventory.erase "water", score := g.score + 10 },
           GR "You drink the water. Very refreshing!")
        | _ => (g, GR ("You can\x27t figure out how to use the " ++ item.name ++ "."))

/-- `_turn`: two-token form `turn on|off <target>`; only affects the lamp
device and only while the lamp item is carried. -/
def turnCmd (g : Game) (args : List String) : Game × GameResult :=
  match args with
  | a :: b :: rest =>
    if (["lamp", "light", "lantern"].contains (strToLower (String.intercalate " " (b :: rest)))) &&
        g.inventory.contains "lamp" then
      match strToLower a with
      | "on" => ({ g with lamp_on := true }, GR "You turn on the lamp.")
      | "off" => ({ g with lamp_on := false }, GR "You turn off the lamp.")
      | _ => (g, GR "You can \x27turn on\x27 or \x27turn off\x27 the lamp.")
    else
      (g, GR ("You can\x27t turn " ++ strToLower a ++ " the " ++
        String.intercalate " " (b :: rest) ++ "."))
  | _ => (g, GR "Turn what on or off?")

/-- `_dig`: requires the shovel; in the garden, when the literal string
`"secret"` is not among the display names of the exit destinations, it
writes the `down -> secret` exit and awards +25 score.  (The guard
compares against room names such as `"Secret Room"`, never the key.) -/
def dig (g : Game) (_args : List String) : Game × GameResult :=
  if !(g.inventory.contains "shovel") then
    (g, GR "You need something to dig with.")
  else
    if g.current_room = RoomKey.garden ∧
        "secret" ∉ (currentRoom g).exits.map (fun p => (getRoom g.rooms p.2).name) then
      ({ g with
          rooms := setRoom g.rooms g.current_room
            { currentRoom g with exits := setExit (currentRoom g).exits .down .secret }
          score := g.score + 25 },
       GR "You dig in the soft soil and discover a hidden passage leading down!")
    else
      (g, GR "You dig around but find nothing interesting.")

/-- `_help`: the static help text. -/
def helpCmd (g : Game) (_args : List String) : Game × GameResult :=
  (g, GR (String.intercalate "\n"
    ["\n╔═══════════════════════════════════╗\n║         🆘 HELP SYSTEM 🆘         ║\n╚═══════════════════════════════════╝\n        ",
     "",
     "**Movement Commands:**",
     "🧭 north (n), south (s), east (e), west (w), up (u), down (d)",
     "",
     "**Item Commands:**",
     "📦 take [item] - Pick up an item",
     "📤 drop [item] - Drop an item from inventory",
     "🔍 examine [item] - Look closely at something",
     "🎒 inventory (i) - Check what you\x27re carrying",
     "",
     "**Action Commands:**",
     "⚙️ use [item] - Use an item from inventory",
     "💡 turn on/off [item] - Control devices",
     "🏗️ dig - Dig with a shovel (if you have one)",
     "",
     "**Game Commands:**",
     "👁️ look (l) - Look around current location",
     "🆘 help - Show this help message",
     "📊 score - Check your progress",
     "🚪 quit (q) - Exit the game",
     "",
     ⟨List.replicate 50 '─'⟩,
     "",
     "**💡 Pro Tips:**",
     "• Examine everything you find - details matter!",
     "• Some areas are dark - you\x27ll need light to see",
     "• Try digging in places that seem interesting",
     "• Your goal is to explore and increase your score!",
     "",
     "**🎯 Current Mission:** Find the secret chamber and collect the key!"]))

/-- Right-alignment to width 3, the `{n:>3}` format of the stats box. -/
def padLeft3 (n : Nat) : String :=
  let s := toString n
  if s.length ≥ 3 then s else ⟨List.replicate (3 - s.length) ' ' ++ s.data⟩

/-- The rooms of the dictionary in insertion order (`rooms.values()`). -/
def roomsList (g : Game) : List Room :=
  [g.rooms.driveway, g.rooms.house, g.rooms.kitchen, g.rooms.basement,
   g.rooms.upstairs, g.rooms.garden, g.rooms.secret, g.rooms.road]

/-- `_score`: the stats box, the progress bar and the achievements.
The source computes the progress percentage with floating-point division
(`min(100, (score / 100) * 100)` rendered with `:.0f`); it is modelled
with natural-number arithmetic, which agrees on this display-only value. -/
def scoreCmd (g : Game) (_args : List String) : Game × GameResult :=
  let scoreDisplay :=
    "\n┌─ 📊 GAME STATS 📊 ─┐\n│ Score: " ++ padLeft3 g.score ++
      " points  │\n│ Moves: " ++ padLeft3 g.moves ++ " steps   │\n└──────────────────────┘\n        "
  let progressPercent := min 100 g.score
  let progressBars := progressPercent / 10
  let progressBar : String :=
    ⟨List.replicate progressBars '▓' ++ List.replicate (10 - progressBars) '░'⟩
  let achievements :=
    (if g.score ≥ 10 then ["🏆 Item Collector"] else []) ++
    (if g.score ≥ 25 then ["🗺️ Explorer"] else []) ++
    (if g.score ≥ 50 then ["🕵️ Detective"] else []) ++
    (if g.inventory.length ≥ 3 then ["🎒 Pack Rat"] else []) ++
    (if ((roomsList g).filter (fun r => r.visited)).map (fun r => strToLower r.name)
          |>.contains "secret" then ["🔍 Secret Finder"] else [])
  let achievementParts :=
    if achievements ≠ [] then
      ["", "🏅 **Achievements Unlocked:**"] ++ achievements.map (fun a => "   " ++ a)
    else []
  (g, GR (String.intercalate "\n"
    ([scoreDisplay, "",
      "Progress: [" ++ progressBar ++ "] " ++ toString progressPercent ++ "%"] ++
      achievementParts)))

/-- `_quit`: returns a farewell `GameResult` with `game_over = True`;
note that it does not write the `GameState.game_over` field. -/
def quitCmd (g : Game) (_args : List String) : Game × GameResult :=
  (g, ⟨"Thanks for playing! Final score: " ++ toString g.score ++
        " points in " ++ toString g.moves ++ " moves.", true, false⟩)

/-- The three rotating suggestions of `_unknown_command`. -/
def suggestions : List String :=
  ["Try \x27help\x27 to see available commands.",
   "Use \x27look\x27 to examine your surroundings.",
   "Type \x27inventory\x27 to see what you\x27re carrying."]

/-- `_unknown_command`: `random.choice` is modelled by the oracle `rnd`. -/
def unknownCommand (g : Game) (_args : List String) (rnd : Nat) : Game × GameResult :=
  (g, GR ("I don\x27t understand that command. " ++ (suggestions.getD (rnd % 3) "")))

/-- The command dispatch dictionary `self.commands` plus the
`_unknown_command` default of `process_command`. -/
def dispatchCommand (g : Game) (cmd : String) (args : List String) (rnd : Nat) :
    Game × GameResult :=
  match cmd with
  | "look" | "l" => look g args
  | "examine" | "ex" | "x" => examine g args
  | "take" | "get" => takeCmd g args
  | "drop" => dropCmd g args
  | "inventory" | "i" => inventoryCmd g args
  | "go" => go g args
  | "north" | "n" => goNorth g args
  | "south" | "s" => goSouth g args
  | "east" | "e" => goEast g args
  | "west" | "w" => goWest g args
  | "up" | "u" => goUp g args
  | "down" | "d" => goDown g args
  | "use" => useCmd g args
  | "turn" => turnCmd g args
  | "dig" => dig g args
  | "help" => helpCmd g args
  | "quit" | "q" => quitCmd g args
  | "score" => scoreCmd g args
  | _ => unknownCommand g args rnd

/-- The win condition evaluated after each dispatched command. -/
def winCondition (g : Game) : Prop :=
  g.current_room = RoomKey.secret ∧ "key" ∈ g.inventory ∧ 50 ≤ g.score

instance (g : Game) : Decidable (winCondition g) := by
  unfold winCondition; infer_instance

/-- `AsciiArt.get_victory_art()`. -/
def victoryArt : String :=
  String.intercalate "\n"
    ["",
     "    ✨🎉 CONGRATULATIONS! 🎉✨",
     "    ",
     "    ██╗   ██╗ ██████╗ ██╗   ██╗",
     "    ╚██╗ ██╔╝██╔═══██╗██║   ██║",
     "     ╚████╔╝ ██║   ██║██║   ██║",
     "      ╚██╔╝  ██║   ██║██║   ██║",
     "       ██║   ╚██████╔╝╚██████╔╝",
     "       ╚═╝    ╚═════╝  ╚═════╝",
     "    ",
     "    ██╗    ██╗ ██████╗ ███╗   ██╗",
     "    ██║    ██║██╔═══██╗████╗  ██║",
     "    ██║ █╗ ██║██║   ██║██╔██╗ ██║",
     "    ██║███╗██║██║   ██║██║╚██╗██║",
     "    ╚███╔███╔╝╚██████╔╝██║ ╚████║",
     "     ╚══╝╚══╝  ╚═════╝ ╚═╝  ╚═══╝",
     "    ",
     "       🏆 DUNNET MASTER! 🏆",
     "        "]

/-- The text appended after the dispatched command's message when the win
condition holds: `"\n".join([result.message, "", victory art, "", final
score line, "", closing line])` with the leading `result.message` factored
out. -/
def victorySuffix (g : Game) : String :=
  "\n\n" ++ victoryArt ++
    "\n\n🎉 **FINAL SCORE: " ++ toString g.score ++ " points in " ++
    toString g.moves ++ " moves!** 🎉\n\nYou have mastered the mysteries of Dunnet!"

/-- `process_command`: blank input short-circuits to a hint; otherwise the
first token selects the handler and the win condition is checked on the
resulting state. -/
def processCommand (g : Game) (input : String) (rnd : Nat) : Game × GameResult :=
  match tokenize input with
  | [] => (g, GR "Type \x27help\x27 for available commands.")
  | cmd :: args =>
    let res := dispatchCommand g cmd args rnd
    if winCondition res.1 then
      (res.1, ⟨res.2.message ++ victorySuffix res.1, true, false⟩)
    else
      res

/-- Running a list of input lines (each with its suggestion oracle)
through `process_command`, threading the state. -/
def runScript (g : Game) : List (String × Nat) → Game
  | [] => g
  | (input, rnd) :: rest => runScript (processCommand g input rnd).1 rest

/-- The states a session can be in: everything obtainable from the
initial world by a sequence of commands. -/
def Reachable (g : Game) : Prop := ∃ s : List (String × Nat), runScript initGame s = g

/-- All item keys currently placed in the world: the eight rooms' item
lists (in dictionary order) followed by the inventory. -/
def totalItems (g : Game) : List String :=
  g.rooms.driveway.items ++ g.rooms.house.items ++ g.rooms.kitchen.items ++
    g.rooms.basement.items ++ g.rooms.upstairs.items ++ g.rooms.garden.items ++
    g.rooms.secret.items ++ g.rooms.road.items ++ g.inventory

/-- `totalItems` as a multiset. -/
def msTotal (g : Game) : Multiset String :=
  (g.rooms.driveway.items : Multiset String) + ↑g.rooms.house.items +
    ↑g.rooms.kitchen.items + ↑g.rooms.basement.items + ↑g.rooms.upstairs.items +
    ↑g.rooms.garden.items + ↑g.rooms.secret.items + ↑g.rooms.road.items +
    ↑g.inventory

/-- The seven item keys of the initial world. -/
def originalItemKeys : List String :=
  ["shovel", "lamp", "key", "cpu", "disk", "food", "water"]

/-- The shovel entry of the item dictionary. -/
def shovelItem : Item :=
  ⟨"shovel", "A sturdy metal shovel for digging.", true, false, ["spade", "shovel"]⟩

/-- The state after walking driveway → house → kitchen. -/
def kitchenStateExample : Game := runScript initGame [("n", 0), ("e", 0)]

/-- The state after walking driveway → house → kitchen → basement: the
player stands in the dark basement with no lamp. -/
def darkStateExample : Game := runScript initGame [("n", 0), ("e", 0), ("d", 0)]

/-- A state satisfying the win condition: in the secret room, carrying
the key, with score 55. -/
def winStateExample : Game :=
  { initGame with current_room := .secret, inventory := ["key"], score := 55 }

/-- The state after `take shovel`, `east` (to the garden) and one `dig`. -/
def afterFirstDigExample : Game :=
  runScript initGame [("take shovel", 0), ("east", 0), ("dig", 0)]

/-- The state after picking up the food in the kitchen and eating it. -/
def afterEatExample : Game :=
  runScript initGame [("north", 0), ("east", 0), ("take food", 0), ("use food", 0)]

theorem coe_totalItems (g : Game) : (totalItems g : Multiset String) = msTotal g := by
  simp [totalItems, msTotal]

theorem coe_erase_add_self {l : List String} {a : String} (h : a ∈ l) :
    ((l.erase a : List String) : Multiset String) + {a} = (l : Multiset String) := by
  rw [← Multiset.coe_erase, add_comm, Multiset.singleton_add, Multiset.cons_erase]
  exact Multiset.mem_coe.mpr h

theorem msTotal_look (g : Game) (args : List String) :
    msTotal (look g args).1 = msTotal g := by
  unfold look
  split
  · rfl
  · rcases g with ⟨cr, inv, rooms, go, sc, mv, lo⟩
    cases cr <;> rfl

theorem msTotal_examine (g : Game) (args : List String) :
    msTotal (examine g args).1 = msTotal g := by
  unfold examine
  split
  · exact msTotal_look g []
  · split
    · rfl
    · split
      · rfl
      · split
        · rfl
        · rfl

theorem msTotal_take (g : Game) (args : List String) :
    msTotal (takeCmd g args).1 = msTotal g := by
  unfold takeCmd
  split
  · rfl
  · split
    · rfl
    · split
      · rfl
      · rename_i item heq
        split
        · rfl
        · split
          · rfl
          · rename_i hmemb hport
            simp at hmemb
            rcases g with ⟨cr, inv, rooms, go, sc, mv, lo⟩
            cases cr <;>
              · simp only [currentRoom, getRoom] at hmemb
                simp only [msTotal, setRoom, getRoom, currentRoom]
                rw [show ((inv ++ [item.name] : List String) : Multiset String) =
                      ↑inv + {item.name} by
                    rw [← Multiset.coe_add, Multiset.coe_singleton],
                    ← coe_erase_add_self hmemb]
                abel

theorem msTotal_drop (g : Game) (args : List String) :
    msTotal (dropCmd g args).1 = msTotal g := by
  unfold dropCmd
  split
  · rfl
  · split
    · rfl
    · rename_i item heq
      split
      · rfl
      · rename_i hmemb
        simp at hmemb
        rcases g with ⟨cr, inv, rooms, go, sc, mv, lo⟩
        cases cr <;>
          · simp only [msTotal, setRoom, getRoom, currentRoom]
            rw [show ∀ l : List String, ((l ++ [item.name] : List String) : Multiset String) =
                  ↑l + {item.name} by
                intro l; rw [← Multiset.coe_add, Multiset.coe_singleton],
                ← coe_erase_add_self hmemb]
            abel

theorem msTotal_move (g : Game) (d : Direction) :
    msTotal (move g d).1 = msTotal g := by
  unfold move
  split
  · rfl
  · exact (msTotal_look _ _).trans rfl

theorem msTotal_use (g : Game) (args : List String) :
    msTotal (useCmd g args).1 = msTotal g ∨
      msTotal (useCmd g args).1 + {"food"} = msTotal g ∨
      msTotal (useCmd g args).1 + {"water"} = msTotal g := by
  unfold useCmd
  split
  · exact Or.inl rfl
  · split
    · exact Or.inl rfl
    · rename_i item heq
      split
      · exact Or.inl rfl
      · split
        · exact Or.inl rfl
        · rename_i hmemb husable
          simp at hmemb
          split
          · exact Or.inl rfl
          · rename_i hname
            right; left
            rw [hname] at hmemb
            simp only [msTotal]
            rw [← coe_erase_add_self hmemb]
            abel
          · rename_i hname
            right; right
            rw [hname] at hmemb
            simp only [msTotal]
            rw [← coe_erase_add_self hmemb]
            abel
          · exact Or.inl rfl

theorem msTotal_turn (g : Game) (args : List String) :
    msTotal (turnCmd g args).1 = msTotal g := by
  unfold turnCmd
  split
  · split
    · split <;> rfl
    · rfl
  · rfl

theorem msTotal_dig (g : Game) (args : List String) :
    msTotal (dig g args).1 = msTotal g := by
  unfold dig
  split
  · rfl
  · split
    · rename_i hcond
      rcases g with ⟨cr, inv, rooms, go, sc, mv, lo⟩
      obtain ⟨hcr, -⟩ := hcond
      subst hcr
      rfl
    · rfl

theorem msTotal_inventoryCmd (g : Game) (args : List String) :
    msTotal (inventoryCmd g args).1 = msTotal g := by
  unfold inventoryCmd
  split <;> rfl

theorem msTotal_dispatch (g : Game) (cmd : String) (args : List String) (rnd : Nat) :
    msTotal (dispatchCommand g cmd args rnd).1 = msTotal g ∨
      msTotal (dispatchCommand g cmd args rnd).1 + {"food"} = msTotal g ∨
      msTotal (dispatchCommand g cmd args rnd).1 + {"water"} = msTotal g := by
  unfold dispatchCommand
  split
  · exact Or.inl (msTotal_look _ _)
  · exact Or.inl (msTotal_look _ _)
  · exact Or.inl (msTotal_examine _ _)
  · exact Or.inl (msTotal_examine _ _)
  · exact Or.inl (msTotal_examine _ _)
  · exact Or.inl (msTotal_take _ _)
  · exact Or.inl (msTotal_take _ _)
  · exact Or.inl (msTotal_drop _ _)
  · exact Or.inl (msTotal_inventoryCmd _ _)
  · exact Or.inl (msTotal_inventoryCmd _ _)
  · unfold go
    split
    · exact Or.inl rfl
    · split
      · exact Or.inl rfl
      · exact Or.inl (msTotal_move _ _)
  · exact Or.inl (msTotal_move _ _)
  · exact Or.inl (msTotal_move _ _)
  · exact Or.inl (msTotal_move _ _)
  · exact Or.inl (msTotal_move _ _)
  · exact Or.inl (msTotal_move _ _)
  · exact Or.inl (msTotal_move _ _)
  · exact Or.inl (msTotal_move _ _)
  · exact Or.inl (msTotal_move _ _)
  · exact Or.inl (msTotal_move _ _)
  · exact Or.inl (msTotal_move _ _)
  · exact Or.inl (msTotal_move _ _)
  · exact Or.inl (msTotal_move _ _)
  · exact msTotal_use _ _
  · exact Or.inl (msTotal_turn _ _)
  · exact Or.inl (msTotal_dig _ _)
  · exact Or.inl rfl
  · exact Or.inl rfl
  · exact Or.inl rfl
  · exact Or.inl rfl
  · exact Or.inl rfl

theorem msTotal_processCommand (g : Game) (input : String) (rnd : Nat) :
    msTotal (processCommand g input rnd).1 ≤ msTotal g := by
  unfold processCommand
  split
  · exact le_refl _
  · rename_i cmd args heq
    have hstate : (if winCondition (dispatchCommand g cmd args rnd).1 then
        ((dispatchCommand g cmd args rnd).1,
          (⟨(dispatchCommand g cmd args rnd).2.message ++
            victorySuffix (dispatchCommand g cmd args rnd).1, true, false⟩ : GameResult))
      else dispatchCommand g cmd args rnd).1 = (dispatchCommand g cmd args rnd).1 := by
      split <;> rfl
    rw [hstate]
    rcases msTotal_dispatch g cmd args rnd with h | h | h
    · exact le_of_eq h
    · exact le_of_le_of_eq (self_le_add_right _ _) h
    · exact le_of_le_of_eq (self_le_add_right _ _) h

theorem msTotal_runScript (s : List (String × Nat)) :
    ∀ g : Game, msTotal (runScript g s) ≤ msTotal g := by
  induction s with
  | nil => intro g; exact le_refl _
  | cons x rest ih =>
    intro g
    exact (ih _).trans (msTotal_processCommand g x.1 x.2)

theorem msTotal_reachable {g : Game} (h : Reachable g) : msTotal g ≤ msTotal initGame := by
  obtain ⟨s, hs⟩ := h
  exact hs ▸ msTotal_runScript s initGame

theorem toLower_isWhitespace {c : Char} (h : c.isWhitespace = true) :
    c.toLower.isWhitespace = true := by
  simp only [Char.isWhitespace, Bool.or_eq_true, decide_eq_true_eq] at h
  rcases h with ((h | h) | h) | h <;> rw [h] <;> decide

theorem wordsAux_all_ws {l : List Char} (h : ∀ c ∈ l, c.isWhitespace = true) :
    wordsAux l [] = [] := by
  induction l with
  | nil => rfl
  | cons c cs ih =>
    unfold wordsAux
    rw [h c (List.mem_cons_self c cs)]
    simp only [List.isEmpty_nil, if_true]
    exact ih (fun x hx => h x (List.mem_cons_of_mem c hx))

theorem tokenize_all_ws {input : String} (h : ∀ c ∈ input.data, c.isWhitespace = true) :
    tokenize input = [] := by
  unfold tokenize
  apply wordsAux_all_ws
  intro c hc
  rcases List.mem_map.mp hc with ⟨c0, hc0, rfl⟩
  exact toLower_isWhitespace (h c0 hc0)

/-- C10: for every input line that is empty or consists only of
whitespace, `process_command` returns the fixed hint message with
`game_over = false` and leaves every field of the state unchanged. -/
theorem claim_C10_blank_input (g : Game) (input : String) (rnd : Nat)
    (h : ∀ c ∈ input.data, c.isWhitespace = true) :
    processCommand g input rnd = (g, GR "Type \x27help\x27 for available commands.") := by
  unfold processCommand
  rw [tokenize_all_ws h]

/-- C10 witness: a three-space line at the initial state. -/
theorem claim_C10_blank_input_witness :
    processCommand initGame "   " 7 = (initGame, GR "Type \x27help\x27 for available commands.") :=
  claim_C10_blank_input initGame "   " 7 (by decide)

/-- C3: the claim fails on the initial world: `_initialize_world`
already gives the garden a `down` exit whose destination is the secret
room key, so the secret room is reachable before any `dig`. -/
theorem claim_C3_initial_secret_exit :
    (Direction.down, RoomKey.secret) ∈ (getRoom initGame.rooms RoomKey.garden).exits ∧
    lookupExit (getRoom initGame.rooms RoomKey.garden).exits Direction.down =
      some RoomKey.secret := by
  decide

/-- C4 counterexample: after `quit` the `GameState.game_over` field is
still `false`; only the returned `GameResult` carries `game_over = true`. -/
theorem claim_C4_counterexample :
    (processCommand initGame "quit" 0).1.game_over = false ∧
    (processCommand initGame "quit" 0).2.game_over = true := by
  decide

/-- C4 (amended): `quit` and its synonym `q` leave the `GameState`
unchanged — in particular its `game_over` field keeps its value — and
return a farewell `GameResult` with `game_over = true` whose message
contains the final score and move count. -/
theorem claim_C4_amended (g : Game) (args : List String) (rnd : Nat) :
    dispatchCommand g "quit" args rnd =
      (g, ⟨"Thanks for playing! Final score: " ++ toString g.score ++
            " points in " ++ toString g.moves ++ " moves.", true, false⟩) ∧
    dispatchCommand g "q" args rnd =
      (g, ⟨"Thanks for playing! Final score: " ++ toString g.score ++
            " points in " ++ toString g.moves ++ " moves.", true, false⟩) :=
  ⟨rfl, rfl⟩

/-- C1: the code violates the claim.  The dig guard compares the key
string `"secret"` with the display names of the exit destinations
(`"Driveway"`, `"Secret Room"`), which never match, so after taking the
shovel and digging once in the garden (score 30) a second `dig` awards
+25 again (score 55) and returns the discovery message rather than the
inert "nothing interesting" message. -/
theorem claim_C1_second_dig_repeats :
    afterFirstDigExample.score = 30 ∧
    (processCommand afterFirstDigExample "dig" 0).1.score = 55 ∧
    (processCommand afterFirstDigExample "dig" 0).2.message =
      "You dig in the soft soil and discover a hidden passage leading down!" := by
  decide

theorem look_fst_frame (g : Game) (args : List String) :
    (look g args).1.current_room = g.current_room ∧
    (look g args).1.moves = g.moves ∧
    (look g args).1.inventory = g.inventory ∧
    (look g args).1.score = g.score := by
  unfold look
  split
  · exact ⟨rfl, rfl, rfl, rfl⟩
  · exact ⟨rfl, rfl, rfl, rfl⟩

/-- C7: movement with no exit in the requested direction returns the
error result and leaves every field of the state unchanged; through an
existing exit, `current_room` becomes the destination and `moves`
increments by exactly one. -/
theorem claim_C7_movement (g : Game) (d : Direction) :
    (lookupExit (currentRoom g).exits d = none →
      move g d = (g, GR "You can\x27t go that way.")) ∧
    (∀ dest : RoomKey, lookupExit (currentRoom g).exits d = some dest →
      (move g d).1.current_room = dest ∧ (move g d).1.moves = g.moves + 1) := by
  constructor
  · intro h
    unfold move
    rw [h]
  · intro dest h
    unfold move
    rw [h]
    exact ⟨(look_fst_frame _ _).1, (look_fst_frame _ _).2.1⟩

/-- C7 witness: `up` from the driveway fails and changes nothing;
`north` moves to the living room and increments `moves`. -/
theorem claim_C7_movement_witness :
    move initGame Direction.up = (initGame, GR "You can\x27t go that way.") ∧
    (move initGame Direction.north).1.current_room = RoomKey.house ∧
    (move initGame Direction.north).1.moves = initGame.moves + 1 :=
  ⟨(claim_C7_movement initGame .up).1 (by decide),
   ((claim_C7_movement initGame .north).2 RoomKey.house (by decide)).1,
   ((claim_C7_movement initGame .north).2 RoomKey.house (by decide)).2⟩

/-- C9: moving through an existing exit into a room where the visibility
predicate fails still relocates the player and increments `moves`, the
returned message is the "too dark" one from the implicit look, and the
destination room's `visited` flag is unchanged (not set). -/
theorem claim_C9_move_into_dark (g : Game) (d : Direction) (dest : RoomKey)
    (hexit : lookupExit (currentRoom g).exits d = some dest)
    (hdark : canSee { g with current_room := dest, moves := g.moves + 1 } = false) :
    move g d = ({ g with current_room := dest, moves := g.moves + 1 },
      GR "It is too dark to see anything.") ∧
    (getRoom (move g d).1.rooms dest).visited = (getRoom g.rooms dest).visited := by
  have hmove : move g d = ({ g with current_room := dest, moves := g.moves + 1 },
      GR "It is too dark to see anything.") := by
    simp only [move, hexit, look, hdark, Bool.not_false, if_true]
  exact ⟨hmove, by rw [hmove]⟩

/-- C9 witness: stepping down from the kitchen into the dark basement
with no lamp. -/
theorem claim_C9_move_into_dark_witness :
    move kitchenStateExample Direction.down =
      ({ kitchenStateExample with
          current_room := RoomKey.basement
          moves := kitchenStateExample.moves + 1 },
       GR "It is too dark to see anything.") ∧
    (getRoom (move kitchenStateExample Direction.down).1.rooms RoomKey.basement).visited =
      (getRoom kitchenStateExample.rooms RoomKey.basement).visited :=
  claim_C9_move_into_dark kitchenStateExample .down .basement (by decide) (by decide)

/-- C5: after every dispatched command — whatever the first token was —
if the resulting state satisfies the win condition (secret room, key in
inventory, score at least 50) then the returned result has
`game_over = true` and its message is the just-executed command's message
with the victory text appended. -/
theorem claim_C5_win_check (g : Game) (input : String) (rnd : Nat)
    (cmd : String) (args : List String)
    (htok : tokenize input = cmd :: args)
    (hwin : winCondition (dispatchCommand g cmd args rnd).1) :
    processCommand g input rnd =
      ((dispatchCommand g cmd args rnd).1,
       ⟨(dispatchCommand g cmd args rnd).2.message ++
          victorySuffix (dispatchCommand g cmd args rnd).1, true, false⟩) := by
  unfold processCommand
  rw [htok]
  dsimp only
  rw [if_pos hwin]

/-- C5 witness: the `score` command issued in a winning state. -/
theorem claim_C5_win_check_witness :
    tokenize "score" = "score" :: [] ∧
    winCondition (dispatchCommand winStateExample "score" [] 0).1 ∧
    processCommand winStateExample "score" 0 =
      ((dispatchCommand winStateExample "score" [] 0).1,
       ⟨(dispatchCommand winStateExample "score" [] 0).2.message ++
          victorySuffix (dispatchCommand winStateExample "score" [] 0).1, true, false⟩) :=
  ⟨by decide, by decide,
   claim_C5_win_check winStateExample "score" 0 "score" [] (by decide) (by decide)⟩

/-- C6 counterexample: in the dark basement a bare `take` (no argument)
answers "Take what?" rather than the fixed "too dark" message, because
the argument check precedes the visibility check; this refutes the
claim's universal reading for `take`. -/
theorem claim_C6_counterexample :
    canSee darkStateExample = false ∧
    (processCommand darkStateExample "take" 0).2.message = "Take what?" ∧
    "Take what?" ≠ "It is too dark to see anything." := by
  decide

/-- C6 (amended): `canSee` holds iff the current room is not dark, or it
is dark but the lamp is on and the lamp item is carried; whenever it is
false, `look`, `examine` (with or without arguments) and `take` with a
non-empty target each return the fixed "too dark" result and leave the
state (in particular the room contents) unchanged.  A bare `take`
answers "Take what?" before the visibility check. -/
theorem claim_C6_amended (g : Game) (args : List String) :
    (canSee g = true ↔
      ((currentRoom g).dark = false ∨
        ((currentRoom g).dark = true ∧ g.lamp_on = true ∧ "lamp" ∈ g.inventory))) ∧
    (canSee g = false →
      look g args = (g, GR "It is too dark to see anything.") ∧
      examine g args = (g, GR "It is too dark to see anything.") ∧
      (args ≠ [] → takeCmd g args = (g, GR "It is too dark to see anything."))) := by
  constructor
  · unfold canSee
    cases hd : (currentRoom g).dark <;> simp [hd]
  · intro h
    refine ⟨?_, ?_, ?_⟩
    · simp only [look, h, Bool.not_false, if_true]
    · cases args with
      | nil =>
        show look g [] = _
        simp only [look, h, Bool.not_false, if_true]
      | cons a rest => simp only [examine, h, Bool.not_false, if_true]
    · intro hne
      cases args with
      | nil => exact absurd rfl hne
      | cons a rest => simp only [takeCmd, h, Bool.not_false, if_true]

/-- C6 witness: the amended statement instantiated in the dark basement
with the target `lamp`. -/
theorem claim_C6_amended_witness :
    (canSee darkStateExample = true ↔
      ((currentRoom darkStateExample).dark = false ∨
        ((currentRoom darkStateExample).dark = true ∧ darkStateExample.lamp_on = true ∧
          "lamp" ∈ darkStateExample.inventory))) ∧
    (canSee darkStateExample = false →
      look darkStateExample ["lamp"] =
        (darkStateExample, GR "It is too dark to see anything.") ∧
      examine darkStateExample ["lamp"] =
        (darkStateExample, GR "It is too dark to see anything.") ∧
      (["lamp"] ≠ ([] : List String) →
        takeCmd darkStateExample ["lamp"] =
          (darkStateExample, GR "It is too dark to see anything."))) :=
  claim_C6_amended darkStateExample ["lamp"]

theorem getRoom_setRoom (rs : Rooms) (k : RoomKey) (r : Room) :
    getRoom (setRoom rs k r) k = r := by
  cases k <;> rfl

/-- C8: whenever `take` succeeds, an immediate `drop` of the same target
puts the item back into the item list of the room it was taken from, and
the drop leaves the score unchanged (the +5 credited by the take is not
reversed). -/
theorem claim_C8_take_then_drop (g : Game) (args : List String) (item : Item)
    (hargs : args ≠ [])
    (hsee : canSee g = true)
    (hfind : findItem (String.intercalate " " args) = some item)
    (hmem : item.name ∈ (currentRoom g).items)
    (hport : item.portable = true) :
    (takeCmd g args).1.score = g.score + 5 ∧
    (dropCmd (takeCmd g args).1 args).1.score = (takeCmd g args).1.score ∧
    item.name ∈ (getRoom (dropCmd (takeCmd g args).1 args).1.rooms g.current_room).items := by
  cases args with
  | nil => exact absurd rfl hargs
  | cons a rest =>
    have hcont : (currentRoom g).items.contains item.name = true :=
      List.elem_eq_true_of_mem hmem
    have hcont2 : (g.inventory ++ [item.name]).contains item.name = true :=
      List.elem_eq_true_of_mem (by simp)
    have htake : takeCmd g (a :: rest) =
        ({ g with
            rooms := setRoom g.rooms g.current_room
              { currentRoom g with items := (currentRoom g).items.erase item.name }
            inventory := g.inventory ++ [item.name]
            score := g.score + 5 },
         GR ("You take the " ++ item.name ++ ".")) := by
      simp only [takeCmd, hsee, Bool.not_true, Bool.false_eq_true, if_false, hfind, hcont,
        Bool.not_false, if_true, hport]
    rw [htake]
    refine ⟨rfl, ?_, ?_⟩ <;>
      simp only [dropCmd, hfind, hcont2, Bool.not_true, Bool.false_eq_true, if_false,
        currentRoom, getRoom_setRoom]
    exact List.mem_append_right _ (List.mem_singleton.mpr rfl)

/-- C8 witness: taking and dropping the shovel in the driveway. -/
theorem claim_C8_take_then_drop_witness :
    (takeCmd initGame ["shovel"]).1.score = initGame.score + 5 ∧
    (dropCmd (takeCmd initGame ["shovel"]).1 ["shovel"]).1.score =
      (takeCmd initGame ["shovel"]).1.score ∧
    "shovel" ∈ (getRoom (dropCmd (takeCmd initGame ["shovel"]).1 ["shovel"]).1.rooms
        initGame.current_room).items :=
  claim_C8_take_then_drop initGame ["shovel"] shovelItem (by decide) (by decide)
    (by decide) (by decide) (by decide)

/-- C2 counterexample: after walking to the kitchen, taking the food and
using it, only six item keys remain in the world: `use food` consumes
the item, so the multiset union of the rooms' item lists and the
inventory no longer equals the original seven keys. -/
theorem claim_C2_counterexample :
    Reachable afterEatExample ∧
    ¬ ((totalItems afterEatExample : Multiset String) =
        (originalItemKeys : Multiset String)) :=
  ⟨⟨[("north", 0), ("east", 0), ("take food", 0), ("use food", 0)], rfl⟩, by decide⟩

/-- C2 (amended): in every reachable state each of the original seven
item keys occurs at most once across the rooms' item lists and the
inventory taken together, and no other key ever occurs; the total can
drop below seven because `use food` / `use water` consume the item. -/
theorem claim_C2_amended (g : Game) (h : Reachable g) :
    (totalItems g).Nodup ∧ ∀ x ∈ totalItems g, x ∈ originalItemKeys := by
  have hle : msTotal g ≤ msTotal initGame := msTotal_reachable h
  have hinit : msTotal initGame = (originalItemKeys : Multiset String) := by
    rw [← coe_totalItems]
    exact Multiset.coe_eq_coe.mpr (by decide)
  rw [hinit] at hle
  constructor
  · have hnd : Multiset.Nodup (totalItems g : Multiset String) := by
      rw [coe_totalItems]
      exact Multiset.nodup_of_le hle (Multiset.coe_nodup.mpr (by decide))
    exact Multiset.coe_nodup.mp hnd
  · intro x hx
    have hx' : x ∈ (totalItems g : Multiset String) := Multiset.mem_coe.mpr hx
    rw [coe_totalItems] at hx'
    exact Multiset.mem_coe.mp (Multiset.subset_of_le hle hx')

/-- C2 witness: the amended invariant at the initial state. -/
theorem claim_C2_amended_witness :
    (totalItems initGame).Nodup ∧ ∀ x ∈ totalItems initGame, x ∈ originalItemKeys :=
  claim_C2_amended initGame ⟨[], rfl⟩

end Dunnet
